import Mathlib

/-!
Verification of the Notification-System repository.

Shallow embedding of the core of the repository:
* `app/services/notification_service.py` — the notification state machine
  (`process_notification`, `_schedule_retry`, `_mark_as_sent`, `_mark_as_failed`,
  `update_status`, `create_notification`, `get_notification`);
* `app/core/rabbitmq.py` — the batch publisher
  (`publish_message`, `_process_batch`, `_publish_batch`).

MongoDB documents become records in a list; `datetime.utcnow()` becomes a
natural-number clock; awaited I/O calls that can raise become `Except`-valued
steps whose fault behaviour is chosen by an explicit environment.
-/

/-- `NotificationStatus` enum from `app/models/notification.py`. -/
inductive NStatus
  | pending
  | sent
  | failed
deriving DecidableEq

/-- A notification document as stored in the `notifications` collection
(`notification_doc` built in `create_notification`, plus the fields written
later: `sent_at`, `failed_at`, `last_retry`).  Timestamps are clock ticks. -/
structure NDoc where
  id : String
  user_id : String
  title : String
  message : String
  ntype : String
  status : NStatus
  created_at : Nat
  sent_at : Option Nat
  failed_at : Option Nat
  last_retry : Option Nat
  retry_count : Nat
  max_retries : Nat
  metadata : List (String × String)
deriving DecidableEq

/-- `self.max_retries = 3` in `NotificationService.__init__`. -/
def serviceMaxRetries : Nat := 3

/-- `self.retry_delay = 60` in `NotificationService.__init__`. -/
def serviceRetryDelay : Nat := 60

/-- The queue-message dictionary handed to `process_notification`.  The code
reads `notification["id"]` and `notification.get("retry_count", 0)`, so the
id is required while the retry count may be absent (defaulting to 0). -/
structure Msg where
  id : String
  retry_count : Option Nat
deriving DecidableEq

/-- Serialisation of a stored document into the queue message published for it
(`publish_message(notification_doc)` in `create_notification`). -/
def msgOfDoc (d : NDoc) : Msg :=
  { id := d.id, retry_count := some d.retry_count }

/-- The `notifications` collection. -/
abbrev Store := List NDoc

/-- Apply `f` to the first record satisfying `p` (Mongo `update_one` matches a
single document). -/
def applyFirst (p : NDoc → Bool) (f : NDoc → NDoc) : Store → Store
  | [] => []
  | r :: rs => if p r then f r :: rs else r :: applyFirst p f rs

/-- `modified_count` of a Mongo `update_one`: 1 when a document matched and the
`$set` actually changed it, 0 otherwise (matching but writing identical values
reports 0 modified). -/
def modifiedCount (p : NDoc → Bool) (f : NDoc → NDoc) (s : Store) : Nat :=
  match s.find? p with
  | none => 0
  | some r => if f r = r then 0 else 1

/-- `update_one({"id": nid}, {"$set": ...})`: the new store and the
`modified_count` of the result. -/
def updateOne (nid : String) (f : NDoc → NDoc) (s : Store) : Store × Nat :=
  (applyFirst (fun r => r.id == nid) f s, modifiedCount (fun r => r.id == nid) f s)

/-- Python exceptions observable at the interfaces of the service. -/
inductive PyExc
  | httpExc (code : Nat)
  | attrError (attr : String)
  | dbError
  | mqError
  | sendError
deriving DecidableEq

/-- Outcome of the channel-specific delivery attempt inside the try-block of
`_send_notification`.  Modelled from the spec: the actual sender is a stub
("TODO: Implement actual notification sending logic"); the spec's state
machine distinguishes a successful delivery, an explicit send failure, and an
unhandled exception raised during delivery. -/
inductive SendOutcome
  | success
  | explicitFail
  | raises
deriving DecidableEq

/-- Fault environment for the awaited I/O calls of one `process_notification`
invocation: the delivery outcome, and whether each awaited Mongo
`update_one` / RabbitMQ `publish_message` call raises. -/
structure Env where
  send : SendOutcome
  markSentRaises : Bool
  markFailedRaises : Bool
  retryUpdateRaises : Bool
  publishRaises : Bool
deriving DecidableEq

/-- Environment where every awaited call succeeds and delivery succeeds. -/
def okEnv : Env :=
  { send := .success, markSentRaises := false, markFailedRaises := false,
    retryUpdateRaises := false, publishRaises := false }

/-- State of the system around the service: the Mongo collection, the set of
in-flight queue messages, and the clock feeding `datetime.utcnow()`. -/
structure SysState where
  store : Store
  queue : List Msg
  now : Nat
deriving DecidableEq

/-- Observable events of one `process_notification` run, used to state that a
branch did or did not attempt delivery and what backoff delay it computed. -/
inductive PEvent
  | sendAttempt
  | computedDelay (d : Nat)
  | requeued (m : Msg)
deriving DecidableEq

/-- The `$set` of `_mark_as_sent`: `status = SENT, sent_at = utcnow()`.  No
other field is touched; in particular `failed_at` is not cleared. -/
def setSentFields (now : Nat) (r : NDoc) : NDoc :=
  { r with status := .sent, sent_at := some now }

/-- The `$set` of `_mark_as_failed`: `status = FAILED, failed_at = utcnow()`.
No other field is touched; in particular `sent_at` is not cleared. -/
def setFailedFields (now : Nat) (r : NDoc) : NDoc :=
  { r with status := .failed, failed_at := some now }

/-- `_mark_as_sent(notification_id)`: one awaited `update_one`. -/
def mark_as_sent (env : Env) (nid : String) (st : SysState) :
    Except PyExc Unit × SysState :=
  if env.markSentRaises then (.error .dbError, st)
  else (.ok (), { st with store := (updateOne nid (setSentFields st.now) st.store).1 })

/-- `_mark_as_failed(notification_id)`: one awaited `update_one`. -/
def mark_as_failed (env : Env) (nid : String) (st : SysState) :
    Except PyExc Unit × SysState :=
  if env.markFailedRaises then (.error .dbError, st)
  else (.ok (), { st with store := (updateOne nid (setFailedFields st.now) st.store).1 })

/-- The `$set` of `_schedule_retry`: the incremented `retry_count`, the
`last_retry` timestamp, and `status = PENDING`. -/
def retrySetFields (rc now : Nat) (r : NDoc) : NDoc :=
  { r with retry_count := rc, last_retry := some now, status := .pending }

/-- `_schedule_retry(notification)`: computes
`retry_count = notification.get("retry_count", 0) + 1` and
`delay = self.retry_delay * (2 ** retry_count)` (the delay is computed and
then unused by the code; it is recorded as an event), persists the `$set`
above, then republishes the original, unmodified dict. -/
def schedule_retry (env : Env) (msg : Msg) (st : SysState) :
    Except PyExc Unit × SysState × List PEvent :=
  let rc := msg.retry_count.getD 0 + 1
  let delay := serviceRetryDelay * 2 ^ rc
  if env.retryUpdateRaises then (.error .dbError, st, [.computedDelay delay])
  else
    let st1 : SysState :=
      { st with store := (updateOne msg.id (retrySetFields rc st.now) st.store).1 }
    if env.publishRaises then (.error .mqError, st1, [.computedDelay delay])
    else (.ok (), { st1 with queue := st1.queue ++ [msg] },
          [.computedDelay delay, .requeued msg])

/-- Body of the try-block of `_send_notification`: the channel-specific
delivery attempt.  Modelled from the spec: the concrete sender is a stub that
always returns `True`; the outcome of a real delivery is chosen by the
environment (success, explicit failure, or an unhandled exception). -/
def sendBody (env : Env) : Except PyExc Bool :=
  match env.send with
  | .success => .ok true
  | .explicitFail => .ok false
  | .raises => .error .sendError

/-- `_send_notification(notification)`: the try/except wrapper around the
delivery attempt — any exception is caught and turned into `return False`. -/
def send_notification (env : Env) : Bool :=
  match sendBody env with
  | .ok b => b
  | .error _ => false

/-- The `except Exception` handler of `process_notification`:
`await self._mark_as_failed(notification["id"]); return False`.  An exception
raised by this `_mark_as_failed` itself propagates to the caller. -/
def processExcHandler (env : Env) (msg : Msg) (st : SysState) :
    Except PyExc Bool × SysState :=
  (match (mark_as_failed env msg.id st).1 with
   | .ok _ => .ok false
   | .error e2 => .error e2,
   (mark_as_failed env msg.id st).2)

/-- `process_notification(notification)`: the retry-bounded state machine.
Returns the Python return value (or the propagating exception), the resulting
system state, and the events of the run. -/
def process_notification (env : Env) (msg : Msg) (st : SysState) :
    Except PyExc Bool × SysState × List PEvent :=
  if msg.retry_count.getD 0 ≥ serviceMaxRetries then
    match (mark_as_failed env msg.id st).1 with
    | .ok _ => (.ok false, (mark_as_failed env msg.id st).2, [])
    | .error _ =>
      ((processExcHandler env msg (mark_as_failed env msg.id st).2).1,
       (processExcHandler env msg (mark_as_failed env msg.id st).2).2, [])
  else
    if send_notification env then
      match (mark_as_sent env msg.id st).1 with
      | .ok _ => (.ok true, (mark_as_sent env msg.id st).2, [.sendAttempt])
      | .error _ =>
        ((processExcHandler env msg (mark_as_sent env msg.id st).2).1,
         (processExcHandler env msg (mark_as_sent env msg.id st).2).2, [.sendAttempt])
    else
      match (schedule_retry env msg st).1 with
      | .ok _ =>
        (.ok false, (schedule_retry env msg st).2.1,
         .sendAttempt :: (schedule_retry env msg st).2.2)
      | .error _ =>
        ((processExcHandler env msg (schedule_retry env msg st).2.1).1,
         (processExcHandler env msg (schedule_retry env msg st).2.1).2,
         .sendAttempt :: (schedule_retry env msg st).2.2)

/-- The `$set` of `update_status`: `status`, with `sent_at = utcnow()` when the
new status is `sent` and `None` otherwise, and `failed_at = utcnow()` when the
new status is `failed` and `None` otherwise. -/
def applyStatusSet (s : NStatus) (now : Nat) (r : NDoc) : NDoc :=
  { r with status := s,
           sent_at := if s = .sent then some now else none,
           failed_at := if s = .failed then some now else none }

/-- `get_notification(notification_id)`: `find_one({"id": notification_id})`,
`None` when no document matches. -/
def get_notification (store : Store) (nid : String) : Option NDoc :=
  store.find? (fun r => r.id == nid)

/-- Attribute lookup `status.HTTP_404_NOT_FOUND` / `status.HTTP_500_...`
inside `update_status`: the parameter `status : NotificationStatus` shadows
the imported `fastapi.status` module, and a `NotificationStatus` enum member
has no such attribute, so the lookup raises `AttributeError`. -/
def statusAttrLookup (_s : NStatus) (attr : String) : Except PyExc Nat :=
  .error (.attrError attr)

/-- `update_status(notification_id, status)`: runs the `update_one`, then the
`modified_count == 0` check, then re-reads the document; exceptions flow
through `except HTTPException: raise` / `except Exception: raise
HTTPException(status_code=status.HTTP_500_..., ...)`, where both HTTP-constant
lookups hit the shadowed `status` name. -/
def update_status (st : SysState) (nid : String) (s : NStatus) :
    Except PyExc NDoc × SysState :=
  let upd := updateOne nid (applyStatusSet s st.now) st.store
  let st1 : SysState := { st with store := upd.1 }
  let body : Except PyExc NDoc :=
    if upd.2 = 0 then
      match statusAttrLookup s "HTTP_404_NOT_FOUND" with
      | .error e => .error e
      | .ok c => .error (.httpExc c)
    else
      match get_notification st1.store nid with
      | some n => .ok n
      | none =>
        match statusAttrLookup s "HTTP_404_NOT_FOUND" with
        | .error e => .error e
        | .ok c => .error (.httpExc c)
  let result : Except PyExc NDoc :=
    match body with
    | .ok n => .ok n
    | .error (.httpExc c) => .error (.httpExc c)
    | .error _ =>
      match statusAttrLookup s "HTTP_500_INTERNAL_SERVER_ERROR" with
      | .error e2 => .error e2
      | .ok c => .error (.httpExc c)
  (result, st1)

/-- The caller-supplied part of `create_notification`'s input
(`NotificationCreate`). -/
structure CreateIn where
  user_id : String
  title : String
  message : String
  ntype : String
  metadata : List (String × String)
deriving DecidableEq

/-- `create_notification`: builds the document with `status = PENDING`,
`retry_count = 0`, `max_retries = self.max_retries`, inserts it, and publishes
it to the queue.  The generated uuid is passed in as `nid`. -/
def create_notification (nid : String) (cin : CreateIn) (st : SysState) :
    NDoc × SysState :=
  let doc : NDoc :=
    { id := nid, user_id := cin.user_id, title := cin.title,
      message := cin.message, ntype := cin.ntype, status := .pending,
      created_at := st.now, sent_at := none, failed_at := none,
      last_retry := none, retry_count := 0, max_retries := serviceMaxRetries,
      metadata := cin.metadata }
  (doc, { store := st.store ++ [doc], queue := st.queue ++ [msgOfDoc doc],
          now := st.now })

/-! ### System-level operations and reachable states -/

/-- An externally triggered operation on the system: creating a notification,
a consumer delivering the `i`-th in-flight queue message through
`process_notification`, or an administrative `update_status`. -/
inductive Op
  | create (nid : String) (cin : CreateIn)
  | deliver (env : Env) (i : Nat)
  | setStatus (nid : String) (s : NStatus)

/-- State transition of one operation.  `deliver` removes the chosen queue
message and runs `process_notification` on it; the clock advances after every
operation so later `utcnow()` reads are fresh. -/
def step (st : SysState) : Op → SysState
  | .create nid cin =>
    let st1 := (create_notification nid cin st).2
    { st1 with now := st1.now + 1 }
  | .deliver env i =>
    match st.queue.get? i with
    | none => { st with now := st.now + 1 }
    | some msg =>
      let st1 : SysState := { st with queue := st.queue.eraseIdx i }
      let st2 := (process_notification env msg st1).2.1
      { st2 with now := st2.now + 1 }
  | .setStatus nid s =>
    let st1 := (update_status st nid s).2
    { st1 with now := st1.now + 1 }

/-- The empty initial system. -/
def initState : SysState := { store := [], queue := [], now := 0 }

/-- Run a sequence of operations from the initial state. -/
def runOps (ops : List Op) : SysState := ops.foldl step initState

/-- Record-level invariant: the fixed retry bound, the bounded retry count,
and the terminal-timestamp implications that the code maintains. -/
def DocInv (r : NDoc) : Prop :=
  r.max_retries = serviceMaxRetries ∧
  r.retry_count ≤ r.max_retries ∧
  (r.status = .sent → r.sent_at ≠ none) ∧
  (r.status = .failed → r.failed_at ≠ none)

/-- Store-level invariant: every stored document satisfies `DocInv`. -/
def StoreInv (s : Store) : Prop := ∀ r ∈ s, DocInv r

/-! ### Batch publisher (`app/core/rabbitmq.py`) -/

/-- `RABBITMQ_BATCH_SIZE` (default 10) from `app/core/config.py`. -/
def batchSize : Nat := 10

/-- `max_retries = 3` inside `_publish_batch`. -/
def pubMaxRetries : Nat := 3

/-- Broker behaviour: how many times publishing a given serialized body fails
before it would succeed. -/
structure PubEnv where
  failsBefore : String → Nat

/-- Number of publish attempts `_publish_batch` makes for one message: the
attempt loop runs until success or until `max_retries` attempts are spent. -/
def attemptsFor (env : PubEnv) (m : String) : Nat :=
  min (env.failsBefore m + 1) pubMaxRetries

/-- State of the batch publisher: the shared `_message_batch` buffer. -/
structure MQState where
  buffer : List String
deriving DecidableEq

/-- Observable events of the publisher, including lock acquisition/release of
`_batch_lock` and each network publish attempt. -/
inductive MQEvent
  | lockAcquire
  | lockRelease
  | appended (m : String)
  | netPublish (m : String)
  | bufferCleared
deriving DecidableEq

/-- The publish attempts `_publish_batch` performs for one buffered message. -/
def publishAttemptEvents (env : PubEnv) (m : String) : List MQEvent :=
  List.replicate (attemptsFor env m) (.netPublish m)

/-- `_publish_batch`: early-returns on an empty buffer; otherwise walks the
buffer performing the per-message network publish attempts, and clears the
buffer only after the loop.  The caller holds `_batch_lock` throughout. -/
def publish_batch (env : PubEnv) (st : MQState) : MQState × List MQEvent :=
  if st.buffer.isEmpty then (st, [])
  else (⟨[]⟩, (st.buffer.map (publishAttemptEvents env)).flatten ++ [.bufferCleared])

/-- `publish_message`: under `_batch_lock`, append the serialized message to
the buffer and, if the buffer has reached `RABBITMQ_BATCH_SIZE`, run
`_publish_batch` while still holding the lock. -/
def publish_message_mq (env : PubEnv) (st : MQState) (m : String) :
    MQState × List MQEvent :=
  let st1 : MQState := ⟨st.buffer ++ [m]⟩
  if batchSize ≤ st1.buffer.length then
    let fl := publish_batch env st1
    (fl.1, [.lockAcquire, .appended m] ++ fl.2 ++ [.lockRelease])
  else (st1, [.lockAcquire, .appended m, .lockRelease])

/-- One elapsed period of the `_process_batch` background loop: under
`_batch_lock`, run `_publish_batch` when the buffer is non-empty. -/
def process_batch_tick (env : PubEnv) (st : MQState) : MQState × List MQEvent :=
  if st.buffer.isEmpty then (st, [.lockAcquire, .lockRelease])
  else
    let fl := publish_batch env st
    (fl.1, [.lockAcquire] ++ fl.2 ++ [.lockRelease])

/-- Is the event a flush completion (`_message_batch.clear()` of a non-empty
buffer)?  Counting these counts the flushes in a trace. -/
def isClear : MQEvent → Bool
  | .bufferCleared => true
  | _ => false

/-- Number of flushes recorded in a trace. -/
def countFlushes (evs : List MQEvent) : Nat := (evs.filter isClear).length

/-- Scan a trace with the current `_batch_lock` hold depth and report whether
some network publish attempt happens while the lock is held. -/
def pubWhileLockedAux : Nat → List MQEvent → Bool
  | _, [] => false
  | d, .lockAcquire :: rest => pubWhileLockedAux (d + 1) rest
  | d, .lockRelease :: rest => pubWhileLockedAux (d - 1) rest
  | d, .netPublish _ :: rest => decide (0 < d) || pubWhileLockedAux d rest
  | d, .appended _ :: rest => pubWhileLockedAux d rest
  | d, .bufferCleared :: rest => pubWhileLockedAux d rest

/-- Does the trace publish to the network while `_batch_lock` is held? -/
def pubWhileLocked (evs : List MQEvent) : Bool := pubWhileLockedAux 0 evs

/-! ### Concrete inputs used by counterexamples and witnesses -/

/-- A sample creation input. -/
def cinW : CreateIn :=
  { user_id := "u1", title := "Hi", message := "there", ntype := "email",
    metadata := [] }

/-- Environment whose delivery attempt fails explicitly. -/
def failEnv : Env := { okEnv with send := .explicitFail }

/-- Environment whose delivery attempt raises an unhandled exception. -/
def raiseEnv : Env := { okEnv with send := .raises }

/-- Environment where delivery succeeds but both `_mark_as_sent` and the
`_mark_as_failed` of the exception handler raise (the store is down). -/
def dbDownEnv : Env :=
  { okEnv with markSentRaises := true, markFailedRaises := true }

/-- A sample queue message with `retry_count` 0. -/
def msgW : Msg := { id := "n1", retry_count := some 0 }

/-- A store holding the single freshly created document `n1`. -/
def stW : SysState := (step initState (.create "n1" cinW))

/-- Operation sequence reaching a document that is `sent` while `failed_at`
is still set: create, administratively mark failed, then deliver the still
queued creation message successfully. -/
def opsC7 : List Op :=
  [.create "n1" cinW, .setStatus "n1" .failed, .deliver okEnv 0]

/-- Operation sequence with one failed delivery, for the retry-bound witness. -/
def opsC6 : List Op := [.create "n1" cinW, .deliver failEnv 0]

/-- Broker that accepts every publish on the first attempt. -/
def pubOkEnv : PubEnv := { failsBefore := fun _ => 0 }

/-- A buffer holding one message, as left by a single `publish_message`. -/
def mqOne : MQState := ⟨["m1"]⟩

/-- A buffer holding nine messages, one short of `RABBITMQ_BATCH_SIZE`. -/
def mqNine : MQState := ⟨["m1", "m2", "m3", "m4", "m5", "m6", "m7", "m8", "m9"]⟩

/-- The document created by `opsC6`/`opsC7`'s first operation. -/
def docW : NDoc := (create_notification "n1" cinW initState).1

/-- The document of `opsC6` after its one failed delivery: retry count 1,
still pending, last retry at tick 1. -/
def docC6 : NDoc := retrySetFields 1 1 docW

/-- The final document of `opsC7`: administratively failed at tick 1, then
marked sent at tick 2 — `failed_at` survives `_mark_as_sent`. -/
def docC7 : NDoc := setSentFields 2 (applyStatusSet .failed 1 docW)

/-- A queue message whose retry count has reached `max_retries`. -/
def msgT : Msg := { id := "n1", retry_count := some 3 }

/-- `stW` with its creation message consumed by the queue consumer. -/
def stC3 : SysState := { stW with queue := stW.queue.eraseIdx 0 }

/-- First failed delivery of `n1` (the resubmission loop, iteration 1). -/
def runC3a := process_notification failEnv msgW stC3

/-- State after the first failure, with the requeued message consumed. -/
def stC3b : SysState := { runC3a.2.1 with queue := runC3a.2.1.queue.eraseIdx 0 }

/-- Second failed delivery of the same notification, processing the message
that `_schedule_retry` republished (iteration 2 of the loop). -/
def runC3b := process_notification failEnv msgW stC3b

/-! ### Helper lemmas -/

theorem applyFirst_split (p : NDoc → Bool) (f : NDoc → NDoc) :
    ∀ (pre : Store) (r : NDoc) (post : Store),
      (∀ x ∈ pre, p x = false) → p r = true →
      applyFirst p f (pre ++ r :: post) = pre ++ f r :: post := by
  intro pre
  induction pre with
  | nil =>
    intro r post _ hr
    simp [applyFirst, hr]
  | cons a t ih =>
    intro r post hpre hr
    have ha : p a = false := hpre a (List.mem_cons_self a t)
    simp only [List.cons_append, applyFirst, ha, Bool.false_eq_true, if_false,
      List.cons.injEq, true_and]
    exact ih r post (fun x hx => hpre x (List.mem_cons_of_mem a hx)) hr

theorem applyFirst_forall {P : NDoc → Prop} (p : NDoc → Bool) (f : NDoc → NDoc)
    (hf : ∀ r, P r → P (f r)) :
    ∀ s : Store, (∀ r ∈ s, P r) → ∀ r ∈ applyFirst p f s, P r := by
  intro s
  induction s with
  | nil =>
    intro _ r hr
    simp [applyFirst] at hr
  | cons a t ih =>
    intro h r hr
    simp only [applyFirst] at hr
    by_cases hp : p a
    · rw [if_pos hp] at hr
      rcases List.mem_cons.mp hr with h1 | h1
      · exact h1 ▸ hf a (h a (List.mem_cons_self a t))
      · exact h r (List.mem_cons_of_mem a h1)
    · rw [if_neg hp] at hr
      rcases List.mem_cons.mp hr with h1 | h1
      · exact h1 ▸ h a (List.mem_cons_self a t)
      · exact ih (fun x hx => h x (List.mem_cons_of_mem a hx)) r h1

theorem docInv_setSentFields (now : Nat) (r : NDoc) (h : DocInv r) :
    DocInv (setSentFields now r) := by
  obtain ⟨h1, h2, _, _⟩ := h
  refine ⟨h1, h2, fun _ => ?_, fun hc => ?_⟩
  · simp [setSentFields]
  · simp [setSentFields] at hc

theorem docInv_setFailedFields (now : Nat) (r : NDoc) (h : DocInv r) :
    DocInv (setFailedFields now r) := by
  obtain ⟨h1, h2, _, _⟩ := h
  refine ⟨h1, h2, fun hc => ?_, fun _ => ?_⟩
  · simp [setFailedFields] at hc
  · simp [setFailedFields]

theorem docInv_retrySetFields (rc now : Nat) (r : NDoc)
    (hrc : rc ≤ serviceMaxRetries) (h : DocInv r) :
    DocInv (retrySetFields rc now r) := by
  obtain ⟨h1, _, _, _⟩ := h
  refine ⟨h1, ?_, fun hc => ?_, fun hc => ?_⟩
  · simpa [retrySetFields, h1] using hrc
  · simp [retrySetFields] at hc
  · simp [retrySetFields] at hc

theorem docInv_applyStatusSet (s : NStatus) (now : Nat) (r : NDoc) (h : DocInv r) :
    DocInv (applyStatusSet s now r) := by
  obtain ⟨h1, h2, _, _⟩ := h
  cases s with
  | pending =>
    refine ⟨h1, h2, fun hc => ?_, fun hc => ?_⟩
    · simp [applyStatusSet] at hc
    · simp [applyStatusSet] at hc
  | sent =>
    refine ⟨h1, h2, fun _ => ?_, fun hc => ?_⟩
    · simp [applyStatusSet]
    · simp [applyStatusSet] at hc
  | failed =>
    refine ⟨h1, h2, fun hc => ?_, fun _ => ?_⟩
    · simp [applyStatusSet] at hc
    · simp [applyStatusSet]

theorem mark_as_sent_state (env : Env) (nid : String) (st : SysState) :
    (mark_as_sent env nid st).2.store =
      (if env.markSentRaises then st.store
       else applyFirst (fun r => r.id == nid) (setSentFields st.now) st.store) ∧
    (mark_as_sent env nid st).2.queue = st.queue ∧
    (mark_as_sent env nid st).2.now = st.now := by
  by_cases hb : env.markSentRaises <;> simp [mark_as_sent, hb, updateOne]

theorem mark_as_failed_state (env : Env) (nid : String) (st : SysState) :
    (mark_as_failed env nid st).2.store =
      (if env.markFailedRaises then st.store
       else applyFirst (fun r => r.id == nid) (setFailedFields st.now) st.store) ∧
    (mark_as_failed env nid st).2.queue = st.queue ∧
    (mark_as_failed env nid st).2.now = st.now := by
  by_cases hb : env.markFailedRaises <;> simp [mark_as_failed, hb, updateOne]

theorem schedule_retry_state (env : Env) (msg : Msg) (st : SysState) :
    (schedule_retry env msg st).2.1.store =
      (if env.retryUpdateRaises then st.store
       else applyFirst (fun r => r.id == msg.id)
              (retrySetFields (msg.retry_count.getD 0 + 1) st.now) st.store) ∧
    (schedule_retry env msg st).2.1.now = st.now := by
  by_cases hb : env.retryUpdateRaises
  · simp [schedule_retry, hb]
  · by_cases hp : env.publishRaises <;> simp [schedule_retry, hb, hp, updateOne]

theorem processExcHandler_state (env : Env) (msg : Msg) (st : SysState) :
    (processExcHandler env msg st).2 = (mark_as_failed env msg.id st).2 := rfl

theorem storeInv_mark_as_sent (env : Env) (nid : String) (st : SysState)
    (h : StoreInv st.store) : StoreInv (mark_as_sent env nid st).2.store := by
  rw [(mark_as_sent_state env nid st).1]
  by_cases hb : env.markSentRaises
  · rwa [if_pos hb]
  · rw [if_neg hb]
    exact applyFirst_forall _ _ (docInv_setSentFields st.now) st.store h

theorem storeInv_mark_as_failed (env : Env) (nid : String) (st : SysState)
    (h : StoreInv st.store) : StoreInv (mark_as_failed env nid st).2.store := by
  rw [(mark_as_failed_state env nid st).1]
  by_cases hb : env.markFailedRaises
  · rwa [if_pos hb]
  · rw [if_neg hb]
    exact applyFirst_forall _ _ (docInv_setFailedFields st.now) st.store h

theorem storeInv_schedule_retry (env : Env) (msg : Msg) (st : SysState)
    (hrc : msg.retry_count.getD 0 < serviceMaxRetries)
    (h : StoreInv st.store) : StoreInv (schedule_retry env msg st).2.1.store := by
  rw [(schedule_retry_state env msg st).1]
  by_cases hb : env.retryUpdateRaises
  · rwa [if_pos hb]
  · rw [if_neg hb]
    have hle : msg.retry_count.getD 0 + 1 ≤ serviceMaxRetries := hrc
    exact applyFirst_forall _ _
      (fun r => docInv_retrySetFields (msg.retry_count.getD 0 + 1) st.now r hle)
      st.store h

theorem storeInv_processExcHandler (env : Env) (msg : Msg) (st : SysState)
    (h : StoreInv st.store) : StoreInv (processExcHandler env msg st).2.store := by
  rw [processExcHandler_state]
  exact storeInv_mark_as_failed env msg.id st h

theorem storeInv_process (env : Env) (msg : Msg) (st : SysState)
    (h : StoreInv st.store) :
    StoreInv (process_notification env msg st).2.1.store := by
  unfold process_notification
  by_cases hg : msg.retry_count.getD 0 ≥ serviceMaxRetries
  · rw [if_pos hg]
    cases hm : (mark_as_failed env msg.id st).1 with
    | ok v =>
      simp only [hm]
      exact storeInv_mark_as_failed env msg.id st h
    | error e =>
      simp only [hm]
      exact storeInv_processExcHandler env msg _ (storeInv_mark_as_failed env msg.id st h)
  · rw [if_neg hg]
    by_cases hs : send_notification env = true
    · rw [if_pos hs]
      cases hm : (mark_as_sent env msg.id st).1 with
      | ok v =>
        simp only [hm]
        exact storeInv_mark_as_sent env msg.id st h
      | error e =>
        simp only [hm]
        exact storeInv_processExcHandler env msg _ (storeInv_mark_as_sent env msg.id st h)
    · rw [if_neg hs]
      have hrc : msg.retry_count.getD 0 < serviceMaxRetries := by omega
      cases hm : (schedule_retry env msg st).1 with
      | ok v =>
        simp only [hm]
        exact storeInv_schedule_retry env msg st hrc h
      | error e =>
        simp only [hm]
        exact storeInv_processExcHandler env msg _ (storeInv_schedule_retry env msg st hrc h)

theorem update_status_state (st : SysState) (nid : String) (s : NStatus) :
    (update_status st nid s).2.store =
      applyFirst (fun r => r.id == nid) (applyStatusSet s st.now) st.store ∧
    (update_status st nid s).2.queue = st.queue ∧
    (update_status st nid s).2.now = st.now :=
  ⟨rfl, rfl, rfl⟩

theorem storeInv_step (st : SysState) (op : Op) (h : StoreInv st.store) :
    StoreInv (step st op).store := by
  cases op with
  | create nid cin =>
    intro r hr
    simp only [step, create_notification] at hr
    rcases List.mem_append.mp hr with h1 | h1
    · exact h r h1
    · have hr2 := List.mem_singleton.mp h1
      subst hr2
      exact ⟨rfl, Nat.zero_le _, fun hc => by simp at hc, fun hc => by simp at hc⟩
  | deliver env i =>
    simp only [step]
    cases hq : st.queue.get? i with
    | none => simpa using h
    | some msg =>
      simp only [hq]
      exact storeInv_process env msg { st with queue := st.queue.eraseIdx i } h
  | setStatus nid s =>
    simp only [step]
    rw [(update_status_state st nid s).1]
    exact applyFirst_forall _ _ (docInv_applyStatusSet s st.now) st.store h

theorem storeInv_foldl (ops : List Op) :
    ∀ st : SysState, StoreInv st.store → StoreInv ((ops.foldl step st).store) := by
  induction ops with
  | nil =>
    intro st h
    simpa using h
  | cons op rest ih =>
    intro st h
    exact ih _ (storeInv_step st op h)

theorem storeInv_runOps (ops : List Op) : StoreInv (runOps ops).store :=
  storeInv_foldl ops initState (by intro r hr; simp [initState] at hr)

theorem attemptsFor_pos (env : PubEnv) (m : String) : 0 < attemptsFor env m := by
  unfold attemptsFor pubMaxRetries
  omega

theorem netPublish_mem_flatten (env : PubEnv) (l : List String) (x : String)
    (hx : x ∈ l) :
    MQEvent.netPublish x ∈ (l.map (publishAttemptEvents env)).flatten := by
  rw [List.mem_flatten]
  refine ⟨publishAttemptEvents env x, List.mem_map_of_mem _ hx, ?_⟩
  rw [publishAttemptEvents, List.mem_replicate]
  exact ⟨Nat.pos_iff_ne_zero.mp (attemptsFor_pos env x), rfl⟩

theorem countFlushes_append (a b : List MQEvent) :
    countFlushes (a ++ b) = countFlushes a + countFlushes b := by
  simp [countFlushes, List.filter_append]

theorem countFlushes_flatten_attempts (env : PubEnv) (l : List String) :
    countFlushes ((l.map (publishAttemptEvents env)).flatten) = 0 := by
  unfold countFlushes
  rw [List.length_eq_zero]
  rw [List.filter_eq_nil_iff]
  intro e he
  rw [List.mem_flatten] at he
  obtain ⟨es, hes, hee⟩ := he
  obtain ⟨x, _, hx⟩ := List.mem_map.mp hes
  subst hx
  rw [publishAttemptEvents, List.mem_replicate] at hee
  rw [hee.2]
  simp [isClear]

theorem pubWhileLockedAux_cons_netPublish (d : Nat) (hd : 0 < d) (m : String)
    (rest : List MQEvent) :
    pubWhileLockedAux d (.netPublish m :: rest) = true := by
  simp [pubWhileLockedAux, hd]

theorem filter_isClear_attempts (env : PubEnv) (l : List String) :
    ((l.map (publishAttemptEvents env)).flatten).filter isClear = [] := by
  rw [List.filter_eq_nil_iff]
  intro e he
  rw [List.mem_flatten] at he
  obtain ⟨es, hes, hee⟩ := he
  obtain ⟨x, _, hx⟩ := List.mem_map.mp hes
  subst hx
  rw [publishAttemptEvents, List.mem_replicate] at hee
  rw [hee.2]
  simp [isClear]

theorem append_singleton_isEmpty (l : List String) (m : String) :
    (l ++ [m]).isEmpty = false := by
  cases l <;> rfl

theorem process_batch_tick_trace (env : PubEnv) (st : MQState)
    (h : st.buffer ≠ []) :
    process_batch_tick env st =
      (⟨[]⟩,
       [MQEvent.lockAcquire] ++
         ((st.buffer.map (publishAttemptEvents env)).flatten
           ++ [MQEvent.bufferCleared]) ++ [MQEvent.lockRelease]) := by
  rcases hb : st.buffer with _ | ⟨a, as⟩
  · exact absurd hb h
  · simp [process_batch_tick, publish_batch, hb]

theorem publish_message_flush_trace (env : PubEnv) (st : MQState) (m : String)
    (hlen : batchSize ≤ st.buffer.length + 1) :
    publish_message_mq env st m =
      (⟨[]⟩,
       [MQEvent.lockAcquire, MQEvent.appended m] ++
         (((st.buffer ++ [m]).map (publishAttemptEvents env)).flatten
           ++ [MQEvent.bufferCleared]) ++ [MQEvent.lockRelease]) := by
  have hcond : batchSize ≤ (st.buffer ++ [m]).length := by simpa using hlen
  simp [publish_message_mq, hcond, publish_batch, append_singleton_isEmpty, hlen]

/-! ### Claim theorems -/

/-- Claim C1 (code bug): `updateStatus` on an id that matches no stored record
does not fail with a not-found error.  In `update_status` the parameter
`status` shadows the imported fastapi `status` module, so building the 404
response raises `AttributeError`, and the `except Exception` handler raises a
further `AttributeError` while building the 500 response; that exception — not
a not-found error — propagates to the caller. -/
theorem update_status_missing_id_attribute_error :
    (update_status stW "n2" NStatus.sent).1 =
      Except.error (PyExc.attrError "HTTP_500_INTERNAL_SERVER_ERROR") := rfl

/-- Claim C3 (code bug): across the resubmission loop the computed backoff
delay does not grow.  The first failed delivery of `n1` computes delay
`60 * 2 ^ 1 = 120`, persists `retry_count = 1`, and republishes the original
dict with its stale `retry_count = 0`; processing that republished message on
the next failure computes the same delay 120 again, and the stored
`retry_count` stays at 1 — the delay sequence is constant, not strictly
increasing. -/
theorem schedule_retry_stale_requeue_constant_delay :
    runC3a.2.2 = [.sendAttempt, .computedDelay 120, .requeued msgW] ∧
    runC3a.2.1.queue = [msgW] ∧
    (get_notification runC3a.2.1.store "n1").map NDoc.retry_count = some 1 ∧
    runC3b.2.2 = [.sendAttempt, .computedDelay 120, .requeued msgW] ∧
    (get_notification runC3b.2.1.store "n1").map NDoc.retry_count = some 1 :=
  ⟨rfl, rfl, rfl, rfl, rfl⟩

/-- Claim C10 counterexample: when delivery succeeds but `_mark_as_sent`
raises and the `_mark_as_failed` inside the `except` handler raises as well,
`process_notification` propagates the exception instead of returning a
boolean. -/
theorem process_propagates_when_mark_failed_raises_cex :
    (process_notification dbDownEnv msgW stW).1 = Except.error PyExc.dbError := rfl

/-- Claim C7 counterexample: after creating `n1`, administratively marking it
failed, and then delivering its still-queued creation message successfully,
the stored record has `status = sent` while `failed_at` is still set —
`_mark_as_sent` does not clear `failed_at`, so the terminal timestamps are
not mutually exclusive. -/
theorem sent_with_failed_at_set_cex :
    (runOps opsC7).store.find? (fun r => r.id == "n1") = some docC7 ∧
    docC7.status = NStatus.sent ∧
    docC7.sent_at = some 2 ∧
    docC7.failed_at = some 1 :=
  ⟨rfl, rfl, rfl, rfl⟩

/-- Claim C5 counterexample: a timer flush of a one-message buffer publishes
to the network strictly between acquiring and releasing `_batch_lock`, and
clears the buffer only after the publish — there is no swap-and-clear before
the network I/O. -/
theorem flush_publishes_under_lock_cex :
    (process_batch_tick pubOkEnv mqOne).2 =
      [MQEvent.lockAcquire, MQEvent.netPublish "m1", MQEvent.bufferCleared,
       MQEvent.lockRelease] ∧
    pubWhileLocked (process_batch_tick pubOkEnv mqOne).2 = true :=
  ⟨rfl, rfl⟩

/-- Claim C4: when the incoming message's retry count has reached
`self.max_retries`, `process_notification` marks the notification failed
(status `failed`, `failed_at` set by the `$set` of `_mark_as_failed`), returns
`False`, and performs no delivery attempt; since this holds for every state,
re-processing such a message again never attempts delivery either. -/
theorem process_terminal_marks_failed_without_send (env : Env) (msg : Msg)
    (st : SysState) (h : msg.retry_count.getD 0 ≥ serviceMaxRetries)
    (hmf : env.markFailedRaises = false) :
    (process_notification env msg st).1 = Except.ok false ∧
    PEvent.sendAttempt ∉ (process_notification env msg st).2.2 ∧
    (process_notification env msg st).2.1.store =
      applyFirst (fun r => r.id == msg.id) (setFailedFields st.now) st.store ∧
    (process_notification env msg st).2.1.queue = st.queue ∧
    (∀ r : NDoc, (setFailedFields st.now r).status = NStatus.failed ∧
      (setFailedFields st.now r).failed_at = some st.now) := by
  have hm : mark_as_failed env msg.id st =
      (.ok (), { st with
        store := (updateOne msg.id (setFailedFields st.now) st.store).1 }) := by
    simp [mark_as_failed, hmf]
  refine ⟨?_, ?_, ?_, ?_, fun r => ⟨rfl, rfl⟩⟩ <;>
    simp [process_notification, h, hm, updateOne]

/-- Claim C2: an unhandled exception raised during the delivery attempt is
handled identically to an explicit send failure — `_send_notification`
catches it and returns `False`, so the whole `process_notification` run
(result, state, events) is equal to the run where the sender reported
failure; in particular, for a non-terminal message with working store/queue,
no exception reaches the caller, the attempt is counted (`retry_count`
incremented to the message's count plus one, `status` kept pending,
`last_retry` persisted), and the notification is resubmitted to the
publisher. -/
theorem process_exception_equals_explicit_failure (env : Env) (msg : Msg)
    (st : SysState) (hterm : msg.retry_count.getD 0 < serviceMaxRetries)
    (hdb : env.retryUpdateRaises = false) (hpub : env.publishRaises = false) :
    process_notification { env with send := SendOutcome.raises } msg st =
      process_notification { env with send := SendOutcome.explicitFail } msg st ∧
    (process_notification { env with send := SendOutcome.raises } msg st).1 =
      Except.ok false ∧
    (process_notification { env with send := SendOutcome.raises } msg st).2.1.store =
      applyFirst (fun r => r.id == msg.id)
        (retrySetFields (msg.retry_count.getD 0 + 1) st.now) st.store ∧
    (process_notification { env with send := SendOutcome.raises } msg st).2.1.queue =
      st.queue ++ [msg] ∧
    PEvent.sendAttempt ∈
      (process_notification { env with send := SendOutcome.raises } msg st).2.2 ∧
    (∀ r : NDoc,
      (retrySetFields (msg.retry_count.getD 0 + 1) st.now r).retry_count =
        msg.retry_count.getD 0 + 1 ∧
      (retrySetFields (msg.retry_count.getD 0 + 1) st.now r).status =
        NStatus.pending ∧
      (retrySetFields (msg.retry_count.getD 0 + 1) st.now r).last_retry =
        some st.now) := by
  have hg : ¬ (msg.retry_count.getD 0 ≥ serviceMaxRetries) := by omega
  obtain ⟨sd, ms, mf, ru, pb⟩ := env
  simp only at hdb hpub
  subst hdb
  subst hpub
  refine ⟨?_, ?_, ?_, ?_, ?_, fun r => ⟨rfl, rfl, rfl⟩⟩ <;>
    simp [process_notification, hg, send_notification, sendBody, schedule_retry,
      updateOne]

/-- Claim C6: in every reachable system state every stored notification has
`retry_count ≤ max_retries` — creation establishes it with `retry_count = 0`,
and `process_notification`, `_schedule_retry` (guarded by the terminal check),
and `update_status` all preserve it. -/
theorem retry_count_le_max_retries_reachable (ops : List Op) (r : NDoc)
    (hr : r ∈ (runOps ops).store) : r.retry_count ≤ r.max_retries :=
  (storeInv_runOps ops r hr).2.1

/-- Claim C7 (amended): in every reachable system state, `status = sent`
implies `sent_at` is set and `status = failed` implies `failed_at` is set;
however (see the counterexample) `_mark_as_sent` and `_mark_as_failed` do not
clear the opposite timestamp, so `sent_at`/`failed_at` are not mutually
exclusive and can be written more than once. -/
theorem terminal_timestamp_implications_reachable (ops : List Op) (r : NDoc)
    (hr : r ∈ (runOps ops).store) :
    (r.status = NStatus.sent → r.sent_at ≠ none) ∧
    (r.status = NStatus.failed → r.failed_at ≠ none) :=
  ⟨(storeInv_runOps ops r hr).2.2.1, (storeInv_runOps ops r hr).2.2.2⟩

/-- Claim C9: for any stored record matching the id, `update_status` rewrites
exactly `status`, `sent_at`, and `failed_at` — `sent_at` becomes the current
time when the new status is `sent` and `None` otherwise, `failed_at` becomes
the current time when the new status is `failed` and `None` otherwise — and
every other field of the record, and every other record, is unchanged. -/
theorem update_status_writes_exactly_status_fields (st : SysState) (nid : String)
    (s : NStatus) (pre : Store) (r : NDoc) (post : Store)
    (hsplit : st.store = pre ++ r :: post) (hid : r.id = nid)
    (hpre : ∀ x ∈ pre, x.id ≠ nid) :
    (update_status st nid s).2.store = pre ++ applyStatusSet s st.now r :: post ∧
    (applyStatusSet s st.now r).status = s ∧
    (applyStatusSet s st.now r).sent_at =
      (if s = NStatus.sent then some st.now else none) ∧
    (applyStatusSet s st.now r).failed_at =
      (if s = NStatus.failed then some st.now else none) ∧
    (applyStatusSet s st.now r).id = r.id ∧
    (applyStatusSet s st.now r).user_id = r.user_id ∧
    (applyStatusSet s st.now r).title = r.title ∧
    (applyStatusSet s st.now r).message = r.message ∧
    (applyStatusSet s st.now r).ntype = r.ntype ∧
    (applyStatusSet s st.now r).created_at = r.created_at ∧
    (applyStatusSet s st.now r).last_retry = r.last_retry ∧
    (applyStatusSet s st.now r).retry_count = r.retry_count ∧
    (applyStatusSet s st.now r).max_retries = r.max_retries ∧
    (applyStatusSet s st.now r).metadata = r.metadata := by
  refine ⟨?_, rfl, rfl, rfl, rfl, rfl, rfl, rfl, rfl, rfl, rfl, rfl, rfl, rfl⟩
  rw [(update_status_state st nid s).1, hsplit]
  refine applyFirst_split _ _ pre r post (fun x hx => ?_) (by simp [hid])
  simp [hpre x hx]

/-- Claim C10 (amended): provided the `_mark_as_failed` called from the
`except` handler does not itself raise, `process_notification` always returns
a boolean for any message carrying an id, and that boolean is `True` exactly
when the message is not terminal, the delivery attempt succeeded, and the
sent-marking persisted (every other path returns `False`); without that
proviso an exception can propagate (see the counterexample). -/
theorem process_total_when_mark_failed_ok (env : Env) (msg : Msg)
    (st : SysState) (hmf : env.markFailedRaises = false) :
    (process_notification env msg st).1 =
      Except.ok (decide (msg.retry_count.getD 0 < serviceMaxRetries) &&
        decide (env.send = SendOutcome.success) && (!env.markSentRaises)) := by
  obtain ⟨sd, ms, mf, ru, pb⟩ := env
  simp only at hmf
  subst hmf
  by_cases hrc : msg.retry_count.getD 0 < serviceMaxRetries
  · have hg : ¬ (msg.retry_count.getD 0 ≥ serviceMaxRetries) := by omega
    cases sd <;> cases ms <;> cases ru <;> cases pb <;>
      simp [process_notification, hg, hrc, send_notification, sendBody,
        mark_as_sent, mark_as_failed, schedule_retry, processExcHandler,
        updateOne]
  · have hg : msg.retry_count.getD 0 ≥ serviceMaxRetries := by omega
    simp [process_notification, hg, hrc, mark_as_failed, processExcHandler]

/-- Claim C5 (amended): a flush of a non-empty buffer performs the
per-message network publish attempts while `_batch_lock` is held by the
caller and before the buffer is cleared — there is no swap-and-clear, so
producers are blocked during the network I/O; the buffer is empty when the
flush completes, and every buffered message receives a publish attempt. -/
theorem flush_publishes_while_locked_then_clears (env : PubEnv) (st : MQState)
    (h : st.buffer ≠ []) :
    (process_batch_tick env st).1.buffer = [] ∧
    (∀ m ∈ st.buffer, MQEvent.netPublish m ∈ (process_batch_tick env st).2) ∧
    pubWhileLocked (process_batch_tick env st).2 = true ∧
    (process_batch_tick env st).2 =
      [MQEvent.lockAcquire] ++
        ((st.buffer.map (publishAttemptEvents env)).flatten
          ++ [MQEvent.bufferCleared]) ++ [MQEvent.lockRelease] := by
  have htr := process_batch_tick_trace env st h
  refine ⟨by rw [htr], ?_, ?_, by rw [htr]⟩
  · intro m hm
    rw [htr]
    exact List.mem_append.mpr (Or.inl (List.mem_append.mpr (Or.inr
      (List.mem_append.mpr (Or.inl (netPublish_mem_flatten env st.buffer m hm))))))
  · rw [htr]
    rcases hb : st.buffer with _ | ⟨a, as⟩
    · exact absurd hb h
    · have hpos := attemptsFor_pos env a
      obtain ⟨k, hk⟩ : ∃ k, attemptsFor env a = k + 1 :=
        ⟨attemptsFor env a - 1, by omega⟩
      have h1 : publishAttemptEvents env a =
          MQEvent.netPublish a :: List.replicate k (MQEvent.netPublish a) := by
        rw [publishAttemptEvents, hk, List.replicate_succ]
      simp [h1, pubWhileLocked, pubWhileLockedAux]

/-- Claim C8: a `publish_message` call that brings the buffer to the
configured batch size triggers exactly one flush immediately (every buffered
message, including the new one, receives a publish attempt and the buffer
empties), a call below the threshold triggers no flush, and a timer tick
flushes whenever the buffer is non-empty — even for a single buffered
message. -/
theorem batch_flush_on_size_and_timer :
    (∀ (env : PubEnv) (st : MQState) (m : String),
      batchSize ≤ st.buffer.length + 1 →
        countFlushes (publish_message_mq env st m).2 = 1 ∧
        (∀ x ∈ st.buffer ++ [m],
          MQEvent.netPublish x ∈ (publish_message_mq env st m).2) ∧
        (publish_message_mq env st m).1.buffer = []) ∧
    (∀ (env : PubEnv) (st : MQState) (m : String),
      st.buffer.length + 1 < batchSize →
        countFlushes (publish_message_mq env st m).2 = 0 ∧
        (publish_message_mq env st m).1.buffer = st.buffer ++ [m]) ∧
    (∀ (env : PubEnv) (st : MQState), st.buffer ≠ [] →
      countFlushes (process_batch_tick env st).2 = 1 ∧
      (∀ x ∈ st.buffer, MQEvent.netPublish x ∈ (process_batch_tick env st).2)) := by
  refine ⟨?_, ?_, ?_⟩
  · intro env st m hlen
    have hms := publish_message_flush_trace env st m hlen
    refine ⟨?_, ?_, by rw [hms]⟩
    · rw [hms]
      simp only [countFlushes_append]
      rw [countFlushes_flatten_attempts]
      rfl
    · intro x hx
      rw [hms]
      exact List.mem_append.mpr (Or.inl (List.mem_append.mpr (Or.inr
        (List.mem_append.mpr (Or.inl
          (netPublish_mem_flatten env (st.buffer ++ [m]) x hx))))))
  · intro env st m hlt
    have hcond : ¬ (batchSize ≤ st.buffer.length + 1) := by omega
    simp [publish_message_mq, hcond, countFlushes, isClear]
  · intro env st hne
    have htr := process_batch_tick_trace env st hne
    refine ⟨?_, ?_⟩
    · rw [htr]
      simp only [countFlushes_append]
      rw [countFlushes_flatten_attempts]
      rfl
    · intro x hx
      rw [htr]
      exact List.mem_append.mpr (Or.inl (List.mem_append.mpr (Or.inr
        (List.mem_append.mpr (Or.inl (netPublish_mem_flatten env st.buffer x hx))))))

/-! ### Witnesses -/

/-- Witness for C2: the fresh message `n1` with a healthy store and a
delivery attempt that raises. -/
theorem process_exception_equals_explicit_failure_witness :
    process_notification { okEnv with send := SendOutcome.raises } msgW stW =
      process_notification { okEnv with send := SendOutcome.explicitFail } msgW stW ∧
    (process_notification { okEnv with send := SendOutcome.raises } msgW stW).1 =
      Except.ok false :=
  ⟨(process_exception_equals_explicit_failure okEnv msgW stW (by decide) rfl rfl).1,
   (process_exception_equals_explicit_failure okEnv msgW stW (by decide) rfl rfl).2.1⟩

/-- Witness for C4: a message whose retry count has reached the bound. -/
theorem process_terminal_marks_failed_without_send_witness :
    (process_notification okEnv msgT stW).1 = Except.ok false ∧
    PEvent.sendAttempt ∉ (process_notification okEnv msgT stW).2.2 :=
  ⟨(process_terminal_marks_failed_without_send okEnv msgT stW (by decide) rfl).1,
   (process_terminal_marks_failed_without_send okEnv msgT stW (by decide) rfl).2.1⟩

/-- Witness for C5 (amended): a one-message buffer at a timer tick. -/
theorem flush_publishes_while_locked_then_clears_witness :
    (process_batch_tick pubOkEnv mqOne).1.buffer = [] ∧
    pubWhileLocked (process_batch_tick pubOkEnv mqOne).2 = true :=
  ⟨(flush_publishes_while_locked_then_clears pubOkEnv mqOne (by decide)).1,
   (flush_publishes_while_locked_then_clears pubOkEnv mqOne (by decide)).2.2.1⟩

/-- Witness for C6: after one failed delivery, `n1` has retry count 1 ≤ 3. -/
theorem retry_count_le_max_retries_reachable_witness :
    docC6 ∈ (runOps opsC6).store ∧ docC6.retry_count ≤ docC6.max_retries :=
  ⟨by decide, retry_count_le_max_retries_reachable opsC6 docC6 (by decide)⟩

/-- Witness for C7 (amended): the record reached by `opsC7`. -/
theorem terminal_timestamp_implications_reachable_witness :
    docC7 ∈ (runOps opsC7).store ∧
    (docC7.status = NStatus.sent → docC7.sent_at ≠ none) :=
  ⟨by decide, (terminal_timestamp_implications_reachable opsC7 docC7 (by decide)).1⟩

/-- Witness for C8: the tenth publish into a nine-message buffer flushes
exactly once and empties the buffer; a timer tick over a single-message
buffer also flushes exactly once. -/
theorem batch_flush_on_size_and_timer_witness :
    countFlushes (publish_message_mq pubOkEnv mqNine "m10").2 = 1 ∧
    (publish_message_mq pubOkEnv mqNine "m10").1.buffer = [] ∧
    countFlushes (process_batch_tick pubOkEnv mqOne).2 = 1 :=
  ⟨(batch_flush_on_size_and_timer.1 pubOkEnv mqNine "m10" (by decide)).1,
   (batch_flush_on_size_and_timer.1 pubOkEnv mqNine "m10" (by decide)).2.2,
   (batch_flush_on_size_and_timer.2.2 pubOkEnv mqOne (by decide)).1⟩

/-- Witness for C9: an administrative override of the stored record `n1`. -/
theorem update_status_writes_exactly_status_fields_witness :
    (update_status stW "n1" NStatus.sent).2.store =
      [] ++ applyStatusSet NStatus.sent stW.now docW :: [] :=
  (update_status_writes_exactly_status_fields stW "n1" NStatus.sent [] docW []
    rfl rfl (by simp)).1

/-- Witness for C10 (amended): with a healthy store the fresh message `n1`
yields `True`. -/
theorem process_total_when_mark_failed_ok_witness :
    (process_notification okEnv msgW stW).1 = Except.ok true := by
  have h := process_total_when_mark_failed_ok okEnv msgW stW rfl
  simpa using h
